import Mathlib

/-!
Verification development for the arbitration-checker application.

The development shallowly embeds the Python sources:
  * `scraper/arbitr_scraper.py` — `ArbitrScraper.scrape_arbitr_cases` and its
    row-extraction loop, including the Python local-variable scoping of the
    loop body (locals persist across iterations, an unbound local raises
    `NameError`, which the row-level `except Exception` handler catches);
  * `core/application_logic.py` — `ApplicationLogic.start_scraping`,
    `filter_cases` and `export_data_to_csv`, modelled as trace-producing
    functions over an explicit persistent store;
  * `database/db_manager.py` — `insert_case`, `get_all_cases_as_dicts` and
    `get_filtered_cases_as_dicts`, with the dynamically built SQL `WHERE`
    clause embedded as a list of conditions and the `ILIKE` operator given
    its PostgreSQL pattern-matching semantics.

Strings are modelled as `List Char`.  External effects (the browser, the
database connection, the GUI callbacks) are modelled by explicit environment
parameters and event traces.
-/

/-- Strings of the embedded program are lists of characters. -/
abbrev Str := List Char

/-! ## Calendar dates -/

/-- A calendar date, the value stored in the `case_date` DATE column. -/
structure CalDate where
  year : Nat
  month : Nat
  day : Nat
deriving DecidableEq, Repr

/-- Gregorian leap-year rule, as used by Python `datetime.date`. -/
def isLeapYear (y : Nat) : Bool :=
  y % 4 = 0 && (y % 100 ≠ 0 || y % 400 = 0)

/-- Number of days of month `m` in year `y` (Python `calendar`/`datetime` rule). -/
def daysInMonth (y m : Nat) : Nat :=
  if m = 2 then (if isLeapYear y then 29 else 28)
  else if m = 4 || m = 6 || m = 9 || m = 11 then 30
  else 31

/-- Validity of a calendar date as enforced by the `datetime.date` constructor:
year between `MINYEAR = 1` and `MAXYEAR = 9999`, month `1..12`, day within the
month. -/
def CalDate.valid (d : CalDate) : Bool :=
  1 ≤ d.year && d.year ≤ 9999 && 1 ≤ d.month && d.month ≤ 12 &&
    1 ≤ d.day && d.day ≤ daysInMonth d.year d.month

/-- Date order used by the PostgreSQL DATE comparisons: lexicographic on
(year, month, day). -/
def CalDate.le (a b : CalDate) : Bool :=
  a.year < b.year || (a.year = b.year &&
    (a.month < b.month || (a.month = b.month && a.day ≤ b.day)))

/-! ## Digit strings and decimal rendering -/

/-- Numeric value of a string of ASCII decimal digits. -/
def digitsToNat (s : Str) : Nat :=
  s.foldl (fun a c => 10 * a + (c.toNat - 48)) 0

/-- Decimal rendering of a natural number (standard, no padding). -/
def natDecimal (n : Nat) : Str :=
  Nat.toDigits 10 n

/-- Decimal rendering of `n` zero-padded on the left to width `w`, as produced
by the `%Y`/`%m`/`%d` directives of `strftime` and by `date.isoformat`. -/
def padDecimal (w n : Nat) : Str :=
  List.replicate (w - (natDecimal n).length) '0' ++ natDecimal n

/-- ISO-8601 rendering of a calendar date (`YYYY-MM-DD`), as produced by
Python `date.isoformat()` and by `strftime` with format `%Y-%m-%d`. -/
def isoformat (d : CalDate) : Str :=
  padDecimal 4 d.year ++ '-' :: padDecimal 2 d.month ++ '-' :: padDecimal 2 d.day

/-- Parse a strict ISO `YYYY-MM-DD` date string.  This models the cast that
PostgreSQL applies to the `case_date` parameter of the INSERT statement; the
program only ever supplies dates rendered by `strftime` with format
`%Y-%m-%d`, which is exactly this shape.  A string that is not a valid date
makes the cast fail (a database error). -/
def parseIsoDate (s : Str) : Option CalDate :=
  match s.splitOn '-' with
  | [y, m, d] =>
    if y.length = 4 && m.length = 2 && d.length = 2 &&
        (y ++ m ++ d).all Char.isDigit then
      let cd : CalDate := ⟨digitsToNat y, digitsToNat m, digitsToNat d⟩
      if cd.valid then some cd else none
    else none
  | _ => none

/-! ## The source date format `day.month.year`

`arbitr_scraper.py` line 170 parses the extracted date text with
`datetime.datetime.strptime(case_date_str, "%d.%m.%Y")` and re-renders it
with `strftime("%Y-%m-%d")`.  `strptime` anchors the whole string: a day of
one or two digits with value 1..31, a literal dot, a month of one or two
digits with value 1..12, a literal dot, a year of exactly four digits; then
the `datetime` constructor additionally requires year ≥ 1 and the day to
exist in the month.  On any failure a `ValueError` is raised. -/

/-- Parse the scraped date text as `%d.%m.%Y` and render it as `%Y-%m-%d`
(`none` models the `ValueError` of `strptime`/`datetime`). -/
def parseArbitrDate (s : Str) : Option Str :=
  match s.splitOn '.' with
  | [d, m, y] =>
    if 1 ≤ d.length && d.length ≤ 2 && d.all Char.isDigit &&
        1 ≤ m.length && m.length ≤ 2 && m.all Char.isDigit &&
        y.length = 4 && y.all Char.isDigit then
      let cd : CalDate := ⟨digitsToNat y, digitsToNat m, digitsToNat d⟩
      if cd.valid then some (isoformat cd) else none
    else none
  | _ => none

/-! ## Source Connector: `ArbitrScraper.scrape_arbitr_cases` -/

/-- Python whitespace stripped by `str.strip()` (ASCII subset; the sources
only ever strip scraped DOM text). -/
def isPySpace (c : Char) : Bool :=
  c = ' ' || c = '\t' || c = '\n' || c = '\r' || c = '\x0b' || c = '\x0c'

/-- Model of Python `str.strip()`. -/
def pyStrip (s : Str) : Str :=
  ((s.dropWhile isPySpace).reverse.dropWhile isPySpace).reverse

/-- One enumerated result row (a `tr` containing a `num_case` anchor,
line 138).  `cells` is the number of `td` elements found in it (line 154);
`dateText` is the text of the first descendant of the first cell whose text
contains a dot (line 161), `none` when that lookup raises
`NoSuchElementException`; `caseLink` is the text of the first anchor of the
first cell whose target contains `/Card/` (line 165), `none` when that lookup
raises `NoSuchElementException`. -/
structure RawRow where
  cells : Nat
  dateText : Option Str
  caseLink : Option Str
deriving DecidableEq, Repr

/-- A case dictionary with keys `case_number`, `case_date`, `inn`, the shape
built by the scraper at lines 176-180 of `arbitr_scraper.py` and returned by
`get_all_cases_as_dicts` / `get_filtered_cases_as_dicts` of `db_manager.py`
(with `case_date` already rendered as an ISO string). -/
structure CaseDict where
  case_number : Str
  case_date : Str
  inn : Str
deriving DecidableEq, Repr

/-- State of the Python locals of the row loop (lines 142-186).  In Python
the loop-body locals `case_date_str` and `case_number` persist across
iterations of the `for` loop; `none` models the variable being unbound
(reading it raises `NameError`).  `dateParseWarnings` counts executions of
the `logger.warning` call at line 173 (date parse failure); `rowSkipWarnings`
counts rows abandoned by the row-level `except` handlers at lines 183-186. -/
structure RowLoopState where
  cases_data : List CaseDict
  case_date_str : Option Str
  case_number : Option Str
  dateParseWarnings : Nat
  rowSkipWarnings : Nat
deriving DecidableEq, Repr

/-- One iteration of the row loop of `scrape_arbitr_cases` (lines 142-186).

Control flow mirrored from the source:
  * line 143: once `max_results` records are accepted the loop breaks, so
    later rows leave the state unchanged;
  * lines 154-166 (inside `try`): the cell set is read; only when at least
    4 cells are present are the date sub-element and the case-number link
    looked up.  A missing sub-element raises `NoSuchElementException`, caught
    at line 183: the row is skipped, but any local already assigned in this
    iteration keeps its new value.
  * lines 169-173: the date parse `try` sits OUTSIDE the `len(cells) >= 4`
    block, so it always runs.  If `case_date_str` was never bound (no earlier
    row reached line 162) the read raises `NameError`, caught by the
    `except Exception` handler at line 185.  On a `ValueError` the warning at
    line 173 interpolates `case_number`; if that local was never bound the
    f-string itself raises `NameError` (row skipped, no date warning).
  * line 175: the record is appended only when both `case_number` and
    `case_date` are truthy (non-empty / non-None). -/
def processRow (inn : Str) (max_results : Nat) (st0 : RowLoopState) (row : RawRow) :
    RowLoopState :=
  if max_results ≤ st0.cases_data.length then st0
  else
    let extract : RowLoopState × Bool :=
      if 4 ≤ row.cells then
        match row.dateText with
        | none => ({ st0 with rowSkipWarnings := st0.rowSkipWarnings + 1 }, false)
        | some dt =>
          let st1 := { st0 with case_date_str := some (pyStrip dt) }
          match row.caseLink with
          | none => ({ st1 with rowSkipWarnings := st1.rowSkipWarnings + 1 }, false)
          | some cl => ({ st1 with case_number := some (pyStrip cl) }, true)
      else (st0, true)
    match extract with
    | (st, false) => st
    | (st, true) =>
      match st.case_date_str with
      | none => { st with rowSkipWarnings := st.rowSkipWarnings + 1 }
      | some ds =>
        match parseArbitrDate ds with
        | some iso =>
          match st.case_number with
          | none => { st with rowSkipWarnings := st.rowSkipWarnings + 1 }
          | some cn =>
            if cn ≠ [] then
              { st with cases_data := st.cases_data ++ [⟨cn, iso, inn⟩] }
            else st
        | none =>
          match st.case_number with
          | none => { st with rowSkipWarnings := st.rowSkipWarnings + 1 }
          | some _ => { st with dateParseWarnings := st.dateParseWarnings + 1 }

/-- The full row loop, folded over the enumerated rows. -/
def runRows (inn : Str) (max_results : Nat) (rs : List RawRow) : RowLoopState :=
  rs.foldl (processRow inn max_results) ⟨[], none, none, 0, 0⟩

/-- A live browser automation session handle.  `alive` is false once
`driver.quit()` has been called on it. -/
structure DriverHandle where
  alive : Bool
deriving DecidableEq, Repr

/-- Mutable state of an `ArbitrScraper` instance: the `self.driver`
attribute.  Note that the `finally` block of `scrape_arbitr_cases`
(lines 196-199) calls `self.driver.quit()` but never resets `self.driver`
to `None`. -/
structure ScraperState where
  driver : Option DriverHandle
deriving DecidableEq, Repr

/-- Environment of one `scrape_arbitr_cases` call: whether
`webdriver.Chrome()` succeeds when initialization is attempted, whether the
bounded wait for the results container (line 129) expires, and the result
rows enumerated at line 138 otherwise. -/
structure ScrapeEnv where
  initOk : Bool
  timeout : Bool
  rows : List RawRow
deriving DecidableEq, Repr

/-- Everything observable about one `scrape_arbitr_cases` call: the updated
`self.driver` attribute, the returned list, how many browser sessions were
opened by the call, whether a live navigation (`driver.get` on a live
session) was performed, whether `driver.quit()` was called on exit, and the
number of date-parse warnings logged. -/
structure ScrapeOutcome where
  state : ScraperState
  cases_data : List CaseDict
  sessionsOpened : Nat
  navigated : Bool
  quitCalled : Bool
  dateParseWarnings : Nat
deriving DecidableEq, Repr

/-- Embedding of `ArbitrScraper.scrape_arbitr_cases` (lines 87-201).

  * Lines 97-100: only when `self.driver` is falsy is a new WebDriver
    initialized; on initialization failure the call returns `[]` BEFORE the
    `try`/`finally`, so no quit happens.
  * If `self.driver` is a stale handle left over from a previous call (the
    `finally` block quits the driver but never clears the attribute), the
    `driver.get` at line 104 raises `WebDriverException` on the dead session;
    it is caught at line 192 and the `finally` block runs: the call returns
    `[]` without any live navigation.
  * A timeout of the bounded wait (line 129) raises `TimeoutException`,
    caught at line 188: the call returns the empty `cases_data` accumulated
    so far; the `finally` block quits the session.
  * Otherwise the row loop runs and the accumulated list is returned; the
    `finally` block quits the session. -/
def scrape_arbitr_cases (st : ScraperState) (env : ScrapeEnv) (inn : Str)
    (max_results : Nat) : ScrapeOutcome :=
  let init : ScraperState × Nat :=
    match st.driver with
    | none => if env.initOk then (⟨some ⟨true⟩⟩, 1) else (⟨none⟩, 0)
    | some _ => (st, 0)
  match init.1.driver with
  | none => ⟨init.1, [], init.2, false, false, 0⟩
  | some d =>
    if d.alive then
      if env.timeout then ⟨⟨some ⟨false⟩⟩, [], init.2, true, true, 0⟩
      else
        let ls := runRows inn max_results env.rows
        ⟨⟨some ⟨false⟩⟩, ls.cases_data, init.2, true, true, ls.dateParseWarnings⟩
    else ⟨⟨some ⟨false⟩⟩, [], init.2, false, true, 0⟩

/-! ## Persistence layer: `DBManager`

The relational store is a PostgreSQL table `arbitration_cases` with columns
`case_number`, `case_date` (DATE) and `inn`, per the SQL statements of
`db_manager.py`.  Modelled from the spec: the schema file
`database/init_db.sql` referenced by `create_table` is not among the
sources; per the spec (data-model invariant and external-interface section)
`case_number` carries the unique constraint that the
`ON CONFLICT (case_number)` clause of `insert_case` relies on. -/

/-- Health of the database for one operation: `ok` (connection and query
succeed), `connFail` (`psycopg2.connect` raises `OperationalError`, so
`_get_connection` returns `None`), or `queryErr` (`execute` raises a
`psycopg2.Error`, caught by the method's own handler). -/
inductive DbHealth where
  | ok
  | connFail
  | queryErr
deriving DecidableEq, Repr

/-- A persisted row of `arbitration_cases`. -/
structure DbRow where
  case_number : Str
  case_date : CalDate
  inn : Str
deriving DecidableEq, Repr

/-- Conversion performed by `get_all_cases_as_dicts` /
`get_filtered_cases_as_dicts` (lines 203-209, 255-260): the selected row is
turned into a dict and the `datetime.date` value is rendered with
`isoformat()`. -/
def rowToDict (r : DbRow) : CaseDict :=
  ⟨r.case_number, isoformat r.case_date, r.inn⟩

/-- Embedding of `DBManager.insert_case` (lines 102-138).  The INSERT uses
`ON CONFLICT (case_number) DO NOTHING`, so a duplicate `case_number` leaves
the store unchanged and still returns `True` (line 130).  A connection
failure skips the body (`if conn:` is false) and falls through to the
`return False` at line 138; a query error (including a failing DATE cast of
the `case_date` parameter) is caught at line 133 and also yields `False`. -/
def insert_case (db : DbHealth) (store : List DbRow)
    (case_number case_date inn : Str) : List DbRow × Bool :=
  match db with
  | .connFail => (store, false)
  | .queryErr => (store, false)
  | .ok =>
    match parseIsoDate case_date with
    | none => (store, false)
    | some d =>
      if store.any (fun r => r.case_number == case_number) then (store, true)
      else (store ++ [⟨case_number, d, inn⟩], true)

/-- Embedding of `DBManager.get_all_cases_as_dicts` (lines 190-218): on any
database fault the handlers at lines 211-214 are taken (or the body is
skipped when the connection is `None`) and the initial empty list is
returned. -/
def get_all_cases_as_dicts (db : DbHealth) (store : List DbRow) : List CaseDict :=
  match db with
  | .ok => store.map rowToDict
  | _ => []

/-! ## SQL `LIKE` / `ILIKE` pattern semantics

`get_filtered_cases_as_dicts` compares `case_number` and `inn` with
`ILIKE %s` where the parameter is the user filter wrapped as
`f"%[filter]%"` (lines 241-246).  PostgreSQL `LIKE` patterns treat `%` as
"any sequence of characters", `_` as "any single character", and backslash
as the default escape character (a pattern must not end in a lone escape
character — such a pattern is an error and can never arise here because the
built pattern always ends in `%`).  `ILIKE` is `LIKE` after lowercasing both
operands. -/

/-- PostgreSQL `LIKE` pattern matching (case-sensitive core). -/
def likeMatch : Str → Str → Bool
  | [], s => s.isEmpty
  | c :: p, s =>
    if c = '%' then
      likeMatch p s ||
        (match s with
         | [] => false
         | _ :: s2 => likeMatch (c :: p) s2)
    else if c = '_' then
      match s with
      | [] => false
      | _ :: s2 => likeMatch p s2
    else if c = '\\' then
      match p with
      | [] => false
      | e :: p2 =>
        match s with
        | [] => false
        | d :: s2 => e = d && likeMatch p2 s2
    else
      match s with
      | [] => false
      | d :: s2 => c = d && likeMatch p s2
termination_by p s => p.length + s.length
decreasing_by all_goals simp_arith

/-- ASCII lowercasing of a string (`Char.toLower` per character), modelling
the case folding performed by `ILIKE`. -/
def lowerStr (s : Str) : Str := s.map Char.toLower

/-- One condition of the dynamically built `WHERE` clause of
`get_filtered_cases_as_dicts` (lines 238-252). -/
inductive SqlCond where
  | cnLike (pat : Str)
  | innLike (pat : Str)
  | dateGe (d : CalDate)
  | dateLe (d : CalDate)
deriving DecidableEq, Repr

/-- Python truthiness of an optional string filter argument: `None` and the
empty string are falsy, so the corresponding condition is not appended. -/
def strFilterActive : Option Str → Bool
  | none => false
  | some s => !s.isEmpty

/-- The condition list built by the four `if` statements at lines 241-252.
The text filters are wrapped in `%` wildcards exactly as the source does
with `f"%[filter]%"`.  The date parameters are `YYYY-MM-DD` strings in the
source, cast by PostgreSQL to DATE values; they are modelled directly as
calendar dates (`none` covers both `None` and the falsy empty string). -/
def buildConds (cnF innF : Option Str) (sd ed : Option CalDate) : List SqlCond :=
  (if strFilterActive cnF then [SqlCond.cnLike ('%' :: cnF.getD [] ++ ['%'])] else []) ++
    (if strFilterActive innF then [SqlCond.innLike ('%' :: innF.getD [] ++ ['%'])] else []) ++
    (match sd with | some d => [SqlCond.dateGe d] | none => []) ++
    (match ed with | some d => [SqlCond.dateLe d] | none => [])

/-- Evaluation of one `WHERE` condition against a row, with the PostgreSQL
semantics of `ILIKE` (lowercase both operands, then `LIKE`), `>=` and `<=`
on DATE values. -/
def evalCond (r : DbRow) : SqlCond → Bool
  | .cnLike pat => likeMatch (lowerStr pat) (lowerStr r.case_number)
  | .innLike pat => likeMatch (lowerStr pat) (lowerStr r.inn)
  | .dateGe d => CalDate.le d r.case_date
  | .dateLe d => CalDate.le r.case_date d

/-- Embedding of `DBManager.get_filtered_cases_as_dicts` (lines 220-269):
rows satisfying every built condition (`WHERE 1=1 AND ...`) are selected in
store order and converted to dicts; on any database fault the handlers at
lines 262-265 are taken and the initial empty list is returned. -/
def get_filtered_cases_as_dicts (db : DbHealth) (store : List DbRow)
    (cnF innF : Option Str) (sd ed : Option CalDate) : List CaseDict :=
  match db with
  | .ok =>
    (store.filter (fun r => (buildConds cnF innF sd ed).all (evalCond r))).map rowToDict
  | _ => []

/-! ## Coordinator: `ApplicationLogic`

`start_scraping`, `filter_cases` and `export_data_to_csv` are modelled as
functions producing an event trace: every `_update_status` call becomes a
`status` event carrying a constructor that stands for the exact message
string of the source, every invocation of a collaborator becomes its own
event.  The GUI callbacks `gui_status_updater` / `gui_results_updater` are
taken to be present (they are wired in `main.py`; the source guards each use
with an `if`). -/

/-- The status messages `ApplicationLogic` can emit, one constructor per
`_update_status` call site, carrying the data interpolated into the source's
f-string.  Constructors marked unreachable correspond to `except` handlers
whose exception can never arrive there (see the theorems below); note that
`TimeoutException`, `WebDriverException` and `OperationalError` are not even
imported in `application_logic.py`, so those handlers would raise
`NameError` if they were ever consulted. -/
inductive Msg where
  | startingScrape (inn : Str)
  | invalidInn
  | beginScraping
  | noCasesFoundOrError (inn : Str)
  | foundCases (n : Nat) (inn : Str)
  | sourceUnavailable
  | webDriverError
  | unexpectedScrapeError
  | updatingGuiTable
  | savingToDb
  | insertedCount (n : Nat)
  | dbConnectionError
  | dbSaveError
  | noNewCases (inn : Str)
  | processDone
  | applyingFilters
  | foundFiltered (n : Nat)
  | filterError
deriving DecidableEq, Repr

/-- Observable events of a coordinator operation, in order. -/
inductive Event where
  | status (m : Msg)
  | connectorCall (inn : Str)
  | guiResults (cases : List CaseDict)
  | dbCreateTable
  | dbInsert (case_number case_date inn : Str)
deriving DecidableEq, Repr

/-- Whether an event is an operation on the persistence layer
(`create_table` or `insert_case`). -/
def Event.isDbOp : Event → Bool
  | .dbCreateTable => true
  | .dbInsert _ _ _ => true
  | _ => false

/-- The count carried by a status message that reports a number of cases to
the user (`foundCases` at line 83, `insertedCount` at line 112,
`foundFiltered` at line 138); `none` for messages that carry no count. -/
def Event.reportedCount : Event → Option Nat
  | .status (.foundCases n _) => some n
  | .status (.insertedCount n) => some n
  | .status (.foundFiltered n) => some n
  | _ => none

/-- Whether an event is an invocation of the Source Connector. -/
def Event.isConnectorCall : Event → Bool
  | .connectorCall _ => true
  | _ => false

/-- Python `str.isdigit` on one character.  `str.isdigit` is true for every
character with Unicode property `Numeric_Type=Digit` or
`Numeric_Type=Decimal`; besides the ASCII digits this includes characters
such as the superscripts U+00B9, U+00B2, U+00B3, which are NOT decimal
digits (Unicode category `No`, not `Nd`) and therefore are not matched by
the regex class `\d`.  The model is exact on the ASCII digits and on those
three superscripts; other Unicode numeric characters do not occur in this
development. -/
def py_isdigit_char (c : Char) : Bool :=
  c.isDigit || c = '¹' || c = '²' || c = '³'

/-- Python `str.isdigit()`: non-empty and every character numeric in the
sense above. -/
def py_str_isdigit (s : Str) : Bool :=
  !s.isEmpty && s.all py_isdigit_char

/-- The taxpayer-ID validation of `start_scraping` line 71:
`not (not inn or not inn.isdigit() or len(inn) not in [10, 12])`. -/
def innShapeOk (s : Str) : Bool :=
  !s.isEmpty && py_str_isdigit s && (s.length = 10 || s.length = 12)

/-- Result of one `start_scraping` run: the event trace and the final
persisted store. -/
structure SearchOutcome where
  events : List Event
  store : List DbRow
deriving DecidableEq, Repr

/-- Embedding of `ApplicationLogic.start_scraping` (lines 62-122),
parameterized by the Source Connector (`scrape`) and the database health.

Mirrored control flow:
  * line 68: initial status; line 71: validation, early return on failure;
  * line 79: the Connector call.  `scrape_arbitr_cases` catches every
    exception class raised inside it (`TimeoutException`,
    `NoSuchElementException`, `WebDriverException`, `Exception`) and always
    returns a list, so the `except` arms at lines 84-95 are unreachable and
    the run always proceeds with the returned list;
  * lines 80-83: the count message — `"... не найдены или произошла
    ошибка"` for an empty list (no count), `"Найдено N дел"` otherwise;
  * lines 98-100: GUI table update (both branches);
  * lines 103-120: for a non-empty list: saving status, `create_table`
    (its boolean result is discarded by the source), one `insert_case` per
    record counting `True` results, then the inserted-count message.
    `insert_case` and `create_table` catch their own database errors and
    return normally, so the handlers at lines 113-118 are unreachable;
  * line 122: final status. -/
def start_scraping (scrape : Str → List CaseDict) (db : DbHealth)
    (store : List DbRow) (inn : Str) : SearchOutcome :=
  let e0 : List Event := [.status (.startingScrape inn)]
  if !innShapeOk inn then ⟨e0 ++ [.status .invalidInn], store⟩
  else
    let cs := scrape inn
    let e1 := e0 ++ [.status .beginScraping, .connectorCall inn]
    let e2 := e1 ++
      [.status (if cs.isEmpty then .noCasesFoundOrError inn else .foundCases cs.length inn)]
    let e3 := e2 ++ [.status .updatingGuiTable, .guiResults cs]
    if cs.isEmpty then
      ⟨e3 ++ [.status (.noNewCases inn), .status .processDone], store⟩
    else
      let step := fun (acc : List DbRow × Nat × List Event) (c : CaseDict) =>
        let ins := insert_case db acc.1 c.case_number c.case_date c.inn
        (ins.1, (if ins.2 then acc.2.1 + 1 else acc.2.1),
          acc.2.2 ++ [Event.dbInsert c.case_number c.case_date c.inn])
      let r := cs.foldl step (store, 0, [])
      ⟨e3 ++ [.status .savingToDb, .dbCreateTable] ++ r.2.2 ++
        [.status (.insertedCount r.2.1), .status .processDone], r.1⟩

/-- Embedding of `ApplicationLogic.filter_cases` (lines 124-143):
status, query, count message, GUI update.  `get_filtered_cases_as_dicts`
catches its own database errors and returns a list, so the handler at
lines 141-143 is unreachable. -/
def filter_cases (db : DbHealth) (store : List DbRow) (cnF innF : Option Str)
    (sd ed : Option CalDate) : List Event :=
  let res := get_filtered_cases_as_dicts db store cnF innF sd ed
  [.status .applyingFilters, .status (.foundFiltered res.length), .guiResults res]

/-! ## CSV export: `ApplicationLogic.export_data_to_csv`

`export_data_to_csv` (lines 145-177) reads all records as dicts (dates
already ISO strings), returns `False` without creating a file when there is
nothing to export, and otherwise writes a CSV with `csv.DictWriter` using
the default dialect: delimiter `,`, quote character `"`, minimal quoting
(a field is quoted exactly when it contains the delimiter, the quote
character, CR or LF; a quote character inside a quoted field is doubled),
line terminator CR LF, and the fixed header `case_number,case_date,inn`. -/

/-- Whether minimal quoting must quote this field. -/
def csvNeedsQuote (s : Str) : Bool :=
  s.any (fun c => c = ',' || c = '"' || c = '\r' || c = '\n')

/-- Double every quote character of a field body. -/
def csvEscape : Str → Str
  | [] => []
  | c :: s => if c = '"' then '"' :: '"' :: csvEscape s else c :: csvEscape s

/-- Render one field with minimal quoting. -/
def csvField (s : Str) : Str :=
  if csvNeedsQuote s then '"' :: (csvEscape s ++ ['"']) else s

/-- Join rendered fields with the `,` delimiter. -/
def csvFieldsJoin : List Str → Str
  | [] => []
  | [f] => csvField f
  | f :: fs => csvField f ++ ',' :: csvFieldsJoin fs

/-- Render one record: comma-separated fields terminated by CR LF. -/
def csvRecord (fields : List Str) : Str :=
  csvFieldsJoin fields ++ ['\r', '\n']

/-- The fields of one exported case dict, in the fixed `fieldnames` order
`case_number, case_date, inn` of line 167. -/
def dictFields (c : CaseDict) : List Str :=
  [c.case_number, c.case_date, c.inn]

/-- The CSV header written by `writer.writeheader()`. -/
def csvHeader : List Str :=
  ["case_number".toList, "case_date".toList, "inn".toList]

/-- The full text written to the CSV file for a list of case dicts. -/
def csvContent (cases : List CaseDict) : Str :=
  csvRecord csvHeader ++ (cases.map (fun c => csvRecord (dictFields c))).flatten

/-- Embedding of `ApplicationLogic.export_data_to_csv`: `none` models the
`return False` paths (empty record set at line 159, or a database fault
which makes `get_all_cases_as_dicts` return the empty list) where no file
content is produced; `some text` models a successful export of `text`. -/
def export_data_to_csv (db : DbHealth) (store : List DbRow) : Option Str :=
  let cases := get_all_cases_as_dicts db store
  if cases.isEmpty then none else some (csvContent cases)

/-! ## A CSV reader

The round-trip property of the spec is settled against a reader for the
dialect `csv.DictWriter` writes: fields separated by `,`, records
terminated by CR LF (a lone LF or CR is also accepted as a terminator), a
field beginning with `"` read as a quoted field with `""` standing for one
quote character. -/

/-- Characters that terminate an unquoted field. -/
def csvSep (c : Char) : Bool :=
  c = ',' || c = '\r' || c = '\n'

/-- Read the body of a quoted field (the opening quote already consumed):
returns the field value and the remaining input after the closing quote, or
`none` for an unterminated quote (never produced by the writer). -/
def parseQuotedBody : Str → Option (Str × Str)
  | [] => none
  | c :: rest =>
    if c = '"' then
      match rest with
      | [] => some ([], [])
      | d :: rest2 =>
        if d = '"' then (parseQuotedBody rest2).map (fun fr => ('"' :: fr.1, fr.2))
        else some ([], rest)
    else (parseQuotedBody rest).map (fun fr => (c :: fr.1, fr.2))

/-- Read one field; the remaining input starts at the field's terminating
separator (or is empty at end of input). -/
def parseField (s : Str) : Str × Str :=
  match s with
  | [] => ([], [])
  | c :: rest =>
    if c = '"' then
      match parseQuotedBody rest with
      | some fr => fr
      | none => (rest, [])
    else (s.takeWhile (fun d => !csvSep d), s.dropWhile (fun d => !csvSep d))

/-- Read one record: fields up to and including the record terminator.
`fuel` bounds the number of fields (one field per unit). -/
def parseRecordFuel : Nat → Str → List Str × Str
  | 0, s => ([], s)
  | fuel + 1, s =>
    let fr := parseField s
    match fr.2 with
    | [] => ([fr.1], [])
    | c :: r2 =>
      if c = ',' then
        let pr := parseRecordFuel fuel r2
        (fr.1 :: pr.1, pr.2)
      else if c = '\r' then
        match r2 with
        | [] => ([fr.1], [])
        | d :: r3 => if d = '\n' then ([fr.1], r3) else ([fr.1], r2)
      else ([fr.1], r2)

/-- Read all records. `fuel` bounds the number of records. -/
def parseRecordsFuel : Nat → Str → List (List Str)
  | 0, _ => []
  | fuel + 1, s =>
    if s.isEmpty then []
    else (parseRecordFuel s.length s).1 :: parseRecordsFuel fuel (parseRecordFuel s.length s).2

/-- Parse a CSV text into its records of fields. -/
def csvParse (s : Str) : List (List Str) :=
  parseRecordsFuel s.length s

/-! ## Definitions taken from the spec's words, for comparison

The remaining definitions do not embed source code; they state, in
executable form, the vocabulary the spec uses, so that the theorems can
compare the code's behaviour against it. -/

/-- Spec-side: the regex `^\d{10}$|^\d{12}$` of the spec's validation
property.  In a Python 3 `str` pattern `\d` matches exactly the characters
of Unicode category `Nd` (decimal digits); on the character set used in
this development (ASCII plus the superscript digits, which are category
`No`) that is exactly `Char.isDigit`. -/
def specMatchesDigits10or12 (s : Str) : Bool :=
  (s.length = 10 || s.length = 12) && s.all Char.isDigit

/-- Boolean test of whether `f` begins the string `s`. -/
def strBeginsWith : Str → Str → Bool
  | [], _ => true
  | _ :: _, [] => false
  | c :: f, d :: s => c = d && strBeginsWith f s

/-- Boolean substring (contiguous) test. -/
def strHasSubstr (f : Str) : Str → Bool
  | [] => f.isEmpty
  | d :: s2 => strBeginsWith f (d :: s2) || strHasSubstr f s2

/-- Spec-side: "case-insensitive substring match" of a filter against a
column value. -/
def specCaseInsensitiveSubstring (f s : Str) : Bool :=
  strHasSubstr (lowerStr f) (lowerStr s)

/-- Absence of the `LIKE` metacharacters `%`, `_` and the escape `\` from a
filter string; for such filters a `%`-wrapped `ILIKE` pattern is exactly a
case-insensitive substring test (proved below). -/
def noLikeMeta (s : Str) : Bool :=
  s.all (fun c => c ≠ '%' && c ≠ '_' && c ≠ '\\')

/-! ## Helper lemmas -/

/-- Reading back the code point of `Char.ofNat` for a valid scalar value. -/
theorem toNat_ofNat_valid (m : Nat) (h : m < 55296) : (Char.ofNat m).toNat = m := by
  rw [Char.ofNat, dif_pos (Or.inl h)]
  simp [Char.ofNatAux, Char.toNat, UInt32.ofNat', UInt32.toNat, BitVec.toNat_ofNatLt]

/-- Lowercasing an upper-case ASCII letter adds 32 to its code point. -/
theorem toLower_toNat_of_upper {c : Char} (h1 : 65 ≤ c.toNat) (h2 : c.toNat ≤ 90) :
    (Char.toLower c).toNat = c.toNat + 32 := by
  have hb : (65 ≤ c.toNat ∧ c.toNat ≤ 90) := ⟨h1, h2⟩
  rw [Char.toLower]
  simp only [ge_iff_le, hb, if_pos]
  exact toNat_ofNat_valid _ (by omega)

/-- Lowercasing cannot produce a character outside the lower-case ASCII
range other than by leaving its input unchanged. -/
theorem toLower_ne_low (c m : Char) (hm2 : m.toNat < 97 ∨ 122 < m.toNat) (h : c ≠ m) :
    c.toLower ≠ m := by
  by_cases hu : 65 ≤ c.toNat ∧ c.toNat ≤ 90
  · have hv := toLower_toNat_of_upper hu.1 hu.2
    intro he
    rw [he] at hv
    omega
  · rw [Char.toLower]
    simp only [ge_iff_le]
    rw [if_neg hu]
    exact h

/-- Lowercasing preserves the absence of `LIKE` metacharacters. -/
theorem noLikeMeta_lowerStr {f : Str} (h : noLikeMeta f = true) :
    noLikeMeta (lowerStr f) = true := by
  simp only [noLikeMeta, lowerStr, List.all_map, List.all_eq_true] at h ⊢
  intro c hc
  have hc' := h c hc
  simp only [Function.comp, Bool.and_eq_true, decide_eq_true_eq, ne_eq] at hc' ⊢
  exact ⟨⟨toLower_ne_low c '%' (by decide) hc'.1.1, toLower_ne_low c '_' (by decide) hc'.1.2⟩,
    toLower_ne_low c '\\' (by decide) hc'.2⟩

/-- Unfolding of `likeMatch` on the empty pattern. -/
theorem likeMatch_nil (s : Str) : likeMatch [] s = s.isEmpty := by
  rw [likeMatch.eq_def]

/-- Unfolding of `likeMatch` on a `%` wildcard. -/
theorem likeMatch_pct (p : Str) (s : Str) :
    likeMatch ('%' :: p) s =
      (likeMatch p s || (match s with | [] => false | _ :: s2 => likeMatch ('%' :: p) s2)) := by
  rw [likeMatch.eq_def]
  simp

/-- The pattern `%` alone matches every string. -/
theorem likeMatch_pct_only (s : Str) : likeMatch ['%'] s = true := by
  induction s with
  | nil => rw [likeMatch_pct]; simp [likeMatch_nil]
  | cons c s ih => rw [likeMatch_pct]; simp [ih]

/-- Unfolding of `likeMatch` on a literal pattern character. -/
theorem likeMatch_lit (c : Char) (p s : Str) (h1 : c ≠ '%') (h2 : c ≠ '_') (h3 : c ≠ '\\') :
    likeMatch (c :: p) s =
      (match s with | [] => false | d :: s2 => (c = d && likeMatch p s2)) := by
  rw [likeMatch.eq_def]
  simp [h1, h2, h3]

/-- A pattern beginning with `%` matches a string iff the remaining pattern
matches some suffix. -/
theorem likeMatch_pct_iff (p : Str) (s : Str) :
    likeMatch ('%' :: p) s = true ↔ ∃ n, likeMatch p (s.drop n) = true := by
  induction s with
  | nil =>
    rw [likeMatch_pct]
    simp only [Bool.or_eq_true]
    constructor
    · rintro (h | h)
      · exact ⟨0, h⟩
      · cases h
    · rintro ⟨n, h⟩
      left
      simpa using h
  | cons c s ih =>
    rw [likeMatch_pct]
    simp only [Bool.or_eq_true, ih]
    constructor
    · rintro (h | ⟨n, h⟩)
      · exact ⟨0, h⟩
      · exact ⟨n + 1, h⟩
    · rintro ⟨n, h⟩
      cases n with
      | zero => exact Or.inl h
      | succ n => exact Or.inr ⟨n, h⟩

/-- A metacharacter-free pattern followed by `%` matches a string iff the
pattern is literally a prefix of it. -/
theorem likeMatch_lit_pct (f : Str) (hf : noLikeMeta f = true) (s : Str) :
    likeMatch (f ++ ['%']) s = strBeginsWith f s := by
  induction f generalizing s with
  | nil => simp [likeMatch_pct_only, strBeginsWith]
  | cons c f ih =>
    simp only [noLikeMeta, List.all_cons, Bool.and_eq_true, decide_eq_true_eq] at hf
    have hl := likeMatch_lit c (f ++ ['%']) s (by exact_mod_cast hf.1.1.1) (by exact_mod_cast hf.1.1.2)
      (by exact_mod_cast hf.1.2)
    cases s with
    | nil => simp [List.cons_append, hl, strBeginsWith]
    | cons d s2 =>
      simp only [List.cons_append, hl, strBeginsWith]
      rw [ih (by simpa [noLikeMeta] using hf.2)]

/-- Substring containment is prefix containment at some suffix. -/
theorem strHasSubstr_iff_drop (f s : Str) :
    strHasSubstr f s = true ↔ ∃ n, strBeginsWith f (s.drop n) = true := by
  induction s with
  | nil =>
    constructor
    · intro h
      refine ⟨0, ?_⟩
      cases f with
      | nil => rfl
      | cons c f => simp [strHasSubstr] at h
    · rintro ⟨n, h⟩
      cases f with
      | nil => rfl
      | cons c f => simp [strBeginsWith] at h
  | cons d s2 ih =>
    simp only [strHasSubstr, Bool.or_eq_true, ih]
    constructor
    · rintro (h | ⟨n, h⟩)
      · exact ⟨0, h⟩
      · exact ⟨n + 1, h⟩
    · rintro ⟨n, h⟩
      cases n with
      | zero => exact Or.inl h
      | succ n => exact Or.inr ⟨n, h⟩

/-- A `%`-wrapped metacharacter-free pattern is exactly substring
containment. -/
theorem likeMatch_wrap_eq_substr (f s : Str) (hf : noLikeMeta f = true) :
    likeMatch ('%' :: (f ++ ['%'])) s = strHasSubstr f s := by
  rw [Bool.eq_iff_iff, likeMatch_pct_iff, strHasSubstr_iff_drop]
  constructor
  · rintro ⟨n, h⟩
    exact ⟨n, by rwa [likeMatch_lit_pct f hf] at h⟩
  · rintro ⟨n, h⟩
    exact ⟨n, by rwa [likeMatch_lit_pct f hf]⟩

/-- For metacharacter-free filters the `%`-wrapped `ILIKE` comparison is the
spec's case-insensitive substring match. -/
theorem ilike_wrap_eq_substr (f s : Str) (hf : noLikeMeta f = true) :
    likeMatch (lowerStr ('%' :: (f ++ ['%']))) (lowerStr s) = specCaseInsensitiveSubstring f s := by
  have hlow : lowerStr ('%' :: (f ++ ['%'])) = '%' :: (lowerStr f ++ ['%']) := by
    simp [lowerStr]
  rw [hlow, likeMatch_wrap_eq_substr _ _ (noLikeMeta_lowerStr hf)]
  rfl

/-- Evaluating the built condition list is the conjunction of the individual
filter conditions. -/
theorem buildConds_all_eval (cnF innF : Option Str) (sd ed : Option CalDate) (row : DbRow) :
    (buildConds cnF innF sd ed).all (evalCond row) =
      ((!strFilterActive cnF ||
          likeMatch (lowerStr ('%' :: (cnF.getD [] ++ ['%']))) (lowerStr row.case_number)) &&
        (!strFilterActive innF ||
          likeMatch (lowerStr ('%' :: (innF.getD [] ++ ['%']))) (lowerStr row.inn)) &&
        (sd.all (fun d => CalDate.le d row.case_date)) &&
        (ed.all (fun d => CalDate.le row.case_date d))) := by
  cases hc : strFilterActive cnF <;> cases hi : strFilterActive innF <;> cases sd <;> cases ed <;>
    simp [buildConds, evalCond, hc, hi, Option.all, Bool.and_assoc, Bool.and_comm, Bool.and_left_comm]

/-- The filtered query returns exactly the rows satisfying the conjunction of
the four optional conditions. -/
theorem get_filtered_eq_filter (store : List DbRow) (cnF innF : Option Str) (sd ed : Option CalDate) :
    get_filtered_cases_as_dicts .ok store cnF innF sd ed =
      (store.filter (fun row =>
        ((!strFilterActive cnF ||
            likeMatch (lowerStr ('%' :: (cnF.getD [] ++ ['%']))) (lowerStr row.case_number)) &&
          (!strFilterActive innF ||
            likeMatch (lowerStr ('%' :: (innF.getD [] ++ ['%']))) (lowerStr row.inn)) &&
          (sd.all (fun d => CalDate.le d row.case_date)) &&
          (ed.all (fun d => CalDate.le row.case_date d))))).map rowToDict := by
  show (store.filter _).map rowToDict = _
  rw [List.filter_congr (fun row _ => buildConds_all_eval cnF innF sd ed row)]

/-- Splitting a string whose head segment has no separator and whose tail
starts with a separator (or is empty). -/
theorem csv_take_drop (f rest : Str) (hf : ∀ c ∈ f, csvSep c = false)
    (hr : rest = [] ∨ ∃ d r2, rest = d :: r2 ∧ csvSep d = true) :
    (f ++ rest).takeWhile (fun d => !csvSep d) = f ∧
      (f ++ rest).dropWhile (fun d => !csvSep d) = rest := by
  induction f with
  | nil =>
    rcases hr with rfl | ⟨d, r2, rfl, hd⟩
    · exact ⟨rfl, rfl⟩
    · simp [List.takeWhile, List.dropWhile, hd]
  | cons c f ih =>
    have hc : csvSep c = false := hf c (by simp)
    have := ih (fun x hx => hf x (by simp [hx]))
    simp [List.takeWhile, List.dropWhile, hc, this.1, this.2]

/-- Reading a quoted field body back undoes quote doubling. -/
theorem parseQuotedBody_escape (f rest : Str)
    (hr : rest = [] ∨ ∃ d r2, rest = d :: r2 ∧ d ≠ '"') :
    parseQuotedBody (csvEscape f ++ '"' :: rest) = some (f, rest) := by
  induction f with
  | nil =>
    rcases hr with rfl | ⟨d, r2, rfl, hd⟩
    · simp [csvEscape, parseQuotedBody]
    · simp [csvEscape, parseQuotedBody, hd]
  | cons c f ih =>
    by_cases hc : c = '"'
    · subst hc
      simp [csvEscape, parseQuotedBody, ih]
    · rw [csvEscape, if_neg hc, List.cons_append, parseQuotedBody.eq_def]
      simp only [if_neg hc, ih]
      rfl

/-- A separator character is not a quote. -/
theorem csvSep_ne_quote {d : Char} (hd : csvSep d = true) : d ≠ '"' := by
  rcases (by simpa [csvSep] using hd : (d = ',' ∨ d = '\r') ∨ d = '\n') with (rfl | rfl) | rfl <;>
    decide

/-- Reading one field back undoes minimal quoting. -/
theorem parseField_field (f rest : Str)
    (hr : rest = [] ∨ ∃ d r2, rest = d :: r2 ∧ csvSep d = true) :
    parseField (csvField f ++ rest) = (f, rest) := by
  by_cases hq : csvNeedsQuote f = true
  · have hr' : rest = [] ∨ ∃ d r2, rest = d :: r2 ∧ d ≠ '"' := by
      rcases hr with rfl | ⟨d, r2, rfl, hd⟩
      · exact Or.inl rfl
      · exact Or.inr ⟨d, r2, rfl, csvSep_ne_quote hd⟩
    simp only [csvField, hq, if_pos, List.cons_append, List.append_assoc]
    simp [parseField, parseQuotedBody_escape f rest hr']
  · have hnq := hq
    rw [Bool.not_eq_true] at hnq
    have hall : ∀ c ∈ f, csvSep c = false ∧ c ≠ '"' := by
      intro c hc
      have : ¬(c = ',' || c = '"' || c = '\r' || c = '\n') = true := by
        intro hcount
        have : csvNeedsQuote f = true := by
          simp only [csvNeedsQuote, List.any_eq_true]
          exact ⟨c, hc, hcount⟩
        simp [this] at hnq
      simp only [Bool.or_eq_true, decide_eq_true_eq, not_or] at this
      refine ⟨by simp [csvSep, this.1.1.1, this.2, this.1.2], this.1.1.2⟩
    rw [csvField, if_neg (by simp [hnq])]
    cases f with
    | nil =>
      rcases hr with rfl | ⟨d, r2, rfl, hd⟩
      · rfl
      · have hd' := csvSep_ne_quote hd
        simp only [List.nil_append, parseField]
        rw [if_neg (by simpa using hd')]
        have := csv_take_drop [] (d :: r2) (by simp) (Or.inr ⟨d, r2, rfl, hd⟩)
        simp only [List.nil_append] at this
        rw [this.1, this.2]
    | cons c f2 =>
      have hc := hall c (by simp)
      simp only [List.cons_append, parseField]
      rw [if_neg (by simpa using hc.2)]
      have := csv_take_drop (c :: f2) rest (fun x hx => (hall x hx).1) hr
      simp only [List.cons_append] at this
      rw [this.1, this.2]

/-- Reading one record back recovers its fields and leaves the rest. -/
theorem parseRecordFuel_record (fields : List Str) (hne : fields ≠ []) (more : Str) :
    ∀ fuel, fields.length ≤ fuel →
      parseRecordFuel fuel (csvRecord fields ++ more) = (fields, more) := by
  induction fields with
  | nil => exact absurd rfl hne
  | cons f fs ih =>
    intro fuel hfuel
    match fuel, hfuel with
    | fuel + 1, hf2 =>
      cases fs with
      | nil =>
        have hjoin : csvRecord [f] ++ more = csvField f ++ ('\r' :: '\n' :: more) := by
          simp [csvRecord, csvFieldsJoin]
        rw [hjoin, parseRecordFuel]
        rw [parseField_field f ('\r' :: '\n' :: more) (Or.inr ⟨'\r', '\n' :: more, rfl, by decide⟩)]
        simp
      | cons g gs =>
        have hjoin : csvRecord (f :: g :: gs) ++ more =
            csvField f ++ (',' :: (csvRecord (g :: gs) ++ more)) := by
          simp [csvRecord, csvFieldsJoin]
        rw [hjoin, parseRecordFuel]
        rw [parseField_field f (',' :: (csvRecord (g :: gs) ++ more))
          (Or.inr ⟨',', _, rfl, by decide⟩)]
        simp only [if_pos rfl]
        rw [ih (by simp) fuel (by simp only [List.length_cons] at hf2 ⊢; omega)]
        simp

/-- A rendered record is at least as long as its field count. -/
theorem csvRecord_length (fields : List Str) : fields.length ≤ (csvRecord fields).length := by
  have h : ∀ fs : List Str, fs.length ≤ (csvFieldsJoin fs).length + 1 := by
    intro fs
    induction fs with
    | nil => simp [csvFieldsJoin]
    | cons f gs ih =>
      cases gs with
      | nil => simp [csvFieldsJoin]
      | cons g t =>
        simp only [csvFieldsJoin, List.length_cons, List.length_append] at ih ⊢
        omega
  have := h fields
  simp only [csvRecord, List.length_append, List.length_cons, List.length_nil]
  omega

/-- Reading a rendered record sequence back recovers every record. -/
theorem parseRecordsFuel_rows (rows : List (List Str)) (hne : ∀ r ∈ rows, r ≠ []) :
    ∀ fuel, rows.length ≤ fuel →
      parseRecordsFuel fuel ((rows.map csvRecord).flatten) = rows := by
  induction rows with
  | nil =>
    intro fuel _
    cases fuel <;> rfl
  | cons r rt ih =>
    intro fuel hfuel
    match fuel, hfuel with
    | fuel + 1, hf2 =>
      rw [List.map_cons, List.flatten_cons, parseRecordsFuel]
      rw [if_neg (by simp [csvRecord])]
      have hlen : r.length ≤ (csvRecord r ++ ((rt.map csvRecord).flatten)).length := by
        calc r.length ≤ (csvRecord r).length := csvRecord_length r
        _ ≤ _ := by simp
      rw [parseRecordFuel_record r (hne r (by simp)) _ _ hlen]
      rw [ih (fun x hx => hne x (by simp [hx])) fuel
        (by simp only [List.length_cons] at hf2; omega)]

/-- There are at least as many characters as records. -/
theorem rows_length_le_flatten (rows : List (List Str)) :
    rows.length ≤ ((rows.map csvRecord).flatten).length := by
  induction rows with
  | nil => simp
  | cons r rt ih =>
    have : 1 ≤ (csvRecord r).length := by simp [csvRecord]
    simp only [List.map_cons, List.flatten_cons, List.length_append, List.length_cons]
    omega

/-- Round trip of the writer and the reader: parsing the exported text
recovers the header and every record's fields, in order. -/
theorem csvParse_csvContent (cases : List CaseDict) :
    csvParse (csvContent cases) = csvHeader :: cases.map dictFields := by
  have hc : csvContent cases = (((csvHeader :: cases.map dictFields).map csvRecord).flatten) := by
    simp only [csvContent, List.map_cons, List.flatten_cons, List.map_map]
    rfl
  rw [csvParse, hc]
  apply parseRecordsFuel_rows
  · intro r hr
    rcases List.mem_cons.mp hr with rfl | hr
    · simp [csvHeader]
    · simp only [List.mem_map] at hr
      obtain ⟨c, _, rfl⟩ := hr
      simp [dictFields]
  · exact rows_length_le_flatten _

/-- No row matches the key when the membership test is false. -/
theorem filter_eq_nil_of_any_false {store : List DbRow} {cn : Str}
    (h : store.any (fun r => r.case_number == cn) = false) :
    store.filter (fun r => r.case_number == cn) = [] := by
  rw [List.filter_eq_nil_iff]
  intro a ha hc
  have : store.any (fun r => r.case_number == cn) = true := List.any_eq_true.mpr ⟨a, ha, hc⟩
  rw [h] at this
  cases this

/-- Under the unique constraint, a present key matches exactly one row. -/
theorem filter_len_one_of_nodup {store : List DbRow} {cn : Str}
    (hnd : (store.map DbRow.case_number).Nodup)
    (h : store.any (fun r => r.case_number == cn) = true) :
    (store.filter (fun r => r.case_number == cn)).length = 1 := by
  induction store with
  | nil => simp at h
  | cons r t ih =>
    simp only [List.map_cons, List.nodup_cons] at hnd
    by_cases hr : r.case_number == cn
    · have hrc : r.case_number = cn := by simpa using hr
      have ht : t.filter (fun x => x.case_number == cn) = [] := by
        apply filter_eq_nil_of_any_false
        rw [Bool.eq_false_iff]
        intro hany
        simp only [List.any_eq_true] at hany
        obtain ⟨x, hx, hxc⟩ := hany
        have : cn ∈ t.map DbRow.case_number := by
          simp only [List.mem_map]
          exact ⟨x, hx, by simpa using hxc⟩
        rw [hrc] at hnd
        exact hnd.1 this
      simp [List.filter_cons, hr, ht]
    · have hany : t.any (fun x => x.case_number == cn) = true := by
        simp only [List.any_cons, hr, Bool.false_or] at h
        exact h
      simp only [List.filter_cons, hr]
      exact ih hnd.2 hany

/-! ## Claim theorems -/

/-- C1: the claim states that a result row whose extracted date text fails to
parse as `day.month.year` is still included in the returned sequence with
`case_date` absent/null, with a warning logged and the row not aborted.
Evaluating the embedded scraper on exactly such a row (4 cells, date text
`not.a.date`, case link `A12-34/2023`) shows that the warning IS logged
(`dateParseWarnings = 1`) and the loop is not aborted, but the acceptance
guard `if case_number and case_date` at line 175 DROPS the record: the
returned list is empty. -/
theorem c1_unparsable_date_record_dropped :
    scrape_arbitr_cases ⟨none⟩
        ⟨true, false, [⟨4, some "not.a.date".toList, some "A12-34/2023".toList⟩]⟩
        "1234567890".toList 10 =
      ⟨⟨some ⟨false⟩⟩, [], 1, true, true, 1⟩ := by
  rfl

/-- C2: the claim states that when the bounded wait for the results container
expires, `start_scraping` reports a source-unavailable message, the Connector
yields a failure signal distinguishable from a successful empty result, no
partial data is kept, and zero inserts are performed.  Evaluating the
embedding at a timeout run shows: the Connector's outcome is IDENTICAL to the
outcome of a successful run with zero result rows (no distinguishable failure
signal), the coordinator reports the generic not-found-or-error message and
never the source-unavailable one (that handler is unreachable, and its
exception class is not even imported in `application_logic.py`), no data is
kept, and no persistence event occurs. -/
theorem c2_timeout_indistinguishable_generic_message :
    scrape_arbitr_cases ⟨none⟩ ⟨true, true, []⟩ "1234567890".toList 10 =
      scrape_arbitr_cases ⟨none⟩ ⟨true, false, []⟩ "1234567890".toList 10 ∧
    (scrape_arbitr_cases ⟨none⟩ ⟨true, true, []⟩ "1234567890".toList 10).cases_data = [] ∧
    (start_scraping (fun i => (scrape_arbitr_cases ⟨none⟩ ⟨true, true, []⟩ i 10).cases_data)
        .ok [] "1234567890".toList).events =
      [.status (.startingScrape "1234567890".toList), .status .beginScraping,
        .connectorCall "1234567890".toList, .status (.noCasesFoundOrError "1234567890".toList),
        .status .updatingGuiTable, .guiResults [],
        .status (.noNewCases "1234567890".toList), .status .processDone] ∧
    (start_scraping (fun i => (scrape_arbitr_cases ⟨none⟩ ⟨true, true, []⟩ i 10).cases_data)
        .ok [] "1234567890".toList).events.contains (.status .sourceUnavailable) = false ∧
    (start_scraping (fun i => (scrape_arbitr_cases ⟨none⟩ ⟨true, true, []⟩ i 10).cases_data)
        .ok [] "1234567890".toList).events.all (fun e => !e.isDbOp) = true ∧
    (start_scraping (fun i => (scrape_arbitr_cases ⟨none⟩ ⟨true, true, []⟩ i 10).cases_data)
        .ok [] "1234567890".toList).store = [] :=
  ⟨rfl, rfl, rfl, rfl, rfl, rfl⟩

/-- C4: the claim states that every row with fewer than 4 cells (or with
missing sub-elements) contributes no Case Record, so a page with a
well-formed row dated 15.03.2023, a malformed row, and a well-formed row
dated 16.03.2023 yields exactly 2 records.  Evaluating the embedded scraper
on a 3-cell malformed row between the two well-formed rows shows the date
parse `try` at lines 169-175 sits OUTSIDE the `len(cells) >= 4` block and
reuses the stale Python locals of the previous iteration: the malformed row
RE-APPENDS the first record, yielding 3 records with a duplicate. -/
theorem c4_short_row_duplicates_previous_record :
    scrape_arbitr_cases ⟨none⟩
        ⟨true, false,
          [⟨4, some "15.03.2023".toList, some "A12-34/2023".toList⟩,
            ⟨3, none, none⟩,
            ⟨4, some "16.03.2023".toList, some "A56-78/2023".toList⟩]⟩
        "1234567890".toList 10 =
      ⟨⟨some ⟨false⟩⟩,
        [⟨"A12-34/2023".toList, "2023-03-15".toList, "1234567890".toList⟩,
          ⟨"A12-34/2023".toList, "2023-03-15".toList, "1234567890".toList⟩,
          ⟨"A56-78/2023".toList, "2023-03-16".toList, "1234567890".toList⟩],
        1, true, true, 0⟩ ∧
    (scrape_arbitr_cases ⟨none⟩
        ⟨true, false,
          [⟨4, some "15.03.2023".toList, some "A12-34/2023".toList⟩,
            ⟨3, none, none⟩,
            ⟨4, some "16.03.2023".toList, some "A56-78/2023".toList⟩]⟩
        "1234567890".toList 10).cases_data.length = 3 :=
  ⟨rfl, rfl⟩

/-- C6: the claim states that every call acquires its own browser session and
that two successive calls on the same instance perform two independent live
queries.  Evaluating two successive calls on one instance shows the first
call opens a session, navigates, scrapes and quits — but the `finally` block
never resets `self.driver` to `None`, so the second call skips
initialization (`if not self.driver` is false), its `driver.get` on the dead
session raises, and it opens no session, performs no live navigation, and
returns the empty list. -/
theorem c6_second_call_reuses_quit_driver :
    scrape_arbitr_cases ⟨none⟩
        ⟨true, false, [⟨4, some "15.03.2023".toList, some "A12-34/2023".toList⟩]⟩
        "1234567890".toList 10 =
      ⟨⟨some ⟨false⟩⟩,
        [⟨"A12-34/2023".toList, "2023-03-15".toList, "1234567890".toList⟩],
        1, true, true, 0⟩ ∧
    scrape_arbitr_cases
        (scrape_arbitr_cases ⟨none⟩
          ⟨true, false, [⟨4, some "15.03.2023".toList, some "A12-34/2023".toList⟩]⟩
          "1234567890".toList 10).state
        ⟨true, false, [⟨4, some "15.03.2023".toList, some "A12-34/2023".toList⟩]⟩
        "1234567890".toList 10 =
      ⟨⟨some ⟨false⟩⟩, [], 0, false, true, 0⟩ :=
  ⟨rfl, rfl⟩

/-- C3 counterexample: a string of ten `²` (U+00B2 SUPERSCRIPT TWO) does not
match the spec's regex `^\d{10}$|^\d{12}$` (the superscript is not a decimal
digit), yet Python's `str.isdigit()` accepts it, so `start_scraping` reports
no validation error and DOES invoke the Source Connector. -/
theorem c3_superscript_inn_reaches_connector :
    specMatchesDigits10or12 (List.replicate 10 '²') = false ∧
    (start_scraping (fun _ => []) .ok [] (List.replicate 10 '²')).events.contains
      (.connectorCall (List.replicate 10 '²')) = true ∧
    (start_scraping (fun _ => []) .ok [] (List.replicate 10 '²')).events.contains
      (.status .invalidInn) = false :=
  ⟨rfl, rfl, rfl⟩

/-- C3 (amended): for every input rejected by the code's actual validation
(`not inn or not inn.isdigit() or len(inn) not in [10, 12]`) — i.e. every
input that is empty, contains a character `str.isdigit` rejects, or has
length other than 10 or 12 — `start_scraping` reports exactly the
validation-error message and returns with the store untouched, invoking
neither the Source Connector nor any persistence operation.  (The accepted
set is characterized by `str.isdigit`, which also admits certain non-decimal
Unicode digit characters that the regex `^\d{10}$|^\d{12}$` excludes.) -/
theorem c3_invalid_shape_rejected (scrape : Str → List CaseDict) (db : DbHealth)
    (store : List DbRow) (inn : Str) (h : innShapeOk inn = false) :
    start_scraping scrape db store inn =
      ⟨[.status (.startingScrape inn), .status .invalidInn], store⟩ ∧
    (start_scraping scrape db store inn).events.all
      (fun e => !e.isDbOp && !e.isConnectorCall) = true := by
  have h1 : start_scraping scrape db store inn =
      ⟨[.status (.startingScrape inn), .status .invalidInn], store⟩ := by
    simp [start_scraping, h]
  exact ⟨h1, by rw [h1]; rfl⟩

/-- Witness for C3 (amended) at the concrete rejected input `123`. -/
theorem c3_invalid_shape_rejected_witness :
    start_scraping (fun _ => []) .ok [] "123".toList =
      ⟨[.status (.startingScrape "123".toList), .status .invalidInn], []⟩ ∧
    (start_scraping (fun _ => []) .ok [] "123".toList).events.all
      (fun e => !e.isDbOp && !e.isConnectorCall) = true :=
  c3_invalid_shape_rejected (fun _ => []) .ok [] "123".toList (by rfl)

/-- C5: inserting the same `case_number` twice (with any values on the second
call) leaves the store of the first insert unchanged — no overwrite and no
duplicate — the second call returns `True`, and exactly one row with that
`case_number` is persisted.  Hypotheses: the store satisfies the schema's
unique constraint on `case_number`, the database is reachable, and the date
arguments are valid date strings (otherwise the DATE cast fails and the
insert reports a hard failure). -/
theorem c5_insert_duplicate_single_row (store : List DbRow) (cn cd1 i1 cd2 i2 : Str)
    (hnd : (store.map DbRow.case_number).Nodup)
    (h1 : (parseIsoDate cd1).isSome = true) (h2 : (parseIsoDate cd2).isSome = true) :
    (insert_case .ok (insert_case .ok store cn cd1 i1).1 cn cd2 i2).2 = true ∧
    (insert_case .ok (insert_case .ok store cn cd1 i1).1 cn cd2 i2).1 =
      (insert_case .ok store cn cd1 i1).1 ∧
    ((insert_case .ok (insert_case .ok store cn cd1 i1).1 cn cd2 i2).1.filter
      (fun r => r.case_number == cn)).length = 1 := by
  obtain ⟨d1, hd1⟩ := Option.isSome_iff_exists.mp h1
  obtain ⟨d2, hd2⟩ := Option.isSome_iff_exists.mp h2
  by_cases hany : store.any (fun r => r.case_number == cn) = true
  · have e1 : insert_case .ok store cn cd1 i1 = (store, true) := by
      simp [insert_case, hd1, hany]
    have e2 : insert_case .ok store cn cd2 i2 = (store, true) := by
      simp [insert_case, hd2, hany]
    rw [e1]
    rw [e2]
    exact ⟨rfl, rfl, filter_len_one_of_nodup hnd hany⟩
  · rw [Bool.not_eq_true] at hany
    have e1 : insert_case .ok store cn cd1 i1 = (store ++ [⟨cn, d1, i1⟩], true) := by
      simp [insert_case, hd1, hany]
    have hany2 : (store ++ [(⟨cn, d1, i1⟩ : DbRow)]).any
        (fun r => r.case_number == cn) = true := by
      simp
    have e2 : insert_case .ok (store ++ [⟨cn, d1, i1⟩]) cn cd2 i2 =
        (store ++ [⟨cn, d1, i1⟩], true) := by
      simp [insert_case, hd2, hany2]
    rw [e1]
    rw [e2]
    refine ⟨rfl, rfl, ?_⟩
    rw [List.filter_append, filter_eq_nil_of_any_false hany]
    simp

/-- Witness for C5 at a concrete store and record. -/
theorem c5_insert_duplicate_single_row_witness :
    (insert_case .ok (insert_case .ok [] "A1".toList "2023-01-15".toList "123".toList).1
      "A1".toList "2023-02-20".toList "999".toList).2 = true ∧
    (insert_case .ok (insert_case .ok [] "A1".toList "2023-01-15".toList "123".toList).1
      "A1".toList "2023-02-20".toList "999".toList).1 =
      (insert_case .ok [] "A1".toList "2023-01-15".toList "123".toList).1 ∧
    ((insert_case .ok (insert_case .ok [] "A1".toList "2023-01-15".toList "123".toList).1
      "A1".toList "2023-02-20".toList "999".toList).1.filter
      (fun r => r.case_number == "A1".toList)).length = 1 :=
  c5_insert_duplicate_single_row [] "A1".toList "2023-01-15".toList "123".toList
    "2023-02-20".toList "999".toList (by simp) (by rfl) (by rfl)

/-- C7 counterexample: with the case-number filter `A_B` the filtered query
RETURNS the stored record `AXB` (the `_` is a `LIKE` single-character
wildcard inside `ILIKE %A_B%`), although `A_B` is not a case-insensitive
substring of `AXB` — so the filter is not a substring match as claimed. -/
theorem c7_wildcard_filter_not_substring :
    get_filtered_cases_as_dicts .ok [⟨"AXB".toList, ⟨2023, 3, 15⟩, "123".toList⟩]
        (some "A_B".toList) none none none =
      [⟨"AXB".toList, "2023-03-15".toList, "123".toList⟩] ∧
    specCaseInsensitiveSubstring "A_B".toList "AXB".toList = false := by
  constructor
  · simp only [get_filtered_cases_as_dicts, buildConds, strFilterActive]
    norm_num [evalCond, likeMatch.eq_def, lowerStr, List.filter]
    rfl
  · rfl

/-- C7 (amended): the present filters are applied conjunctively — `ILIKE`
pattern matching of the filter wrapped in `%` wildcards for the case-number
and taxpayer-ID filters, and inclusive lower/upper bounds for the dates —
and for filters containing no `LIKE` metacharacter (`%`, `_`, `\`) the
wrapped `ILIKE` comparison coincides with the spec's case-insensitive
substring match. -/
theorem c7_filters_ilike_conjunctive :
    (∀ (store : List DbRow) (cnF innF : Option Str) (sd ed : Option CalDate),
      get_filtered_cases_as_dicts .ok store cnF innF sd ed =
        (store.filter (fun row =>
          ((!strFilterActive cnF ||
              likeMatch (lowerStr ('%' :: (cnF.getD [] ++ ['%']))) (lowerStr row.case_number)) &&
            (!strFilterActive innF ||
              likeMatch (lowerStr ('%' :: (innF.getD [] ++ ['%']))) (lowerStr row.inn)) &&
            (sd.all (fun d => CalDate.le d row.case_date)) &&
            (ed.all (fun d => CalDate.le row.case_date d))))).map rowToDict) ∧
    (∀ f s : Str, noLikeMeta f = true →
      likeMatch (lowerStr ('%' :: (f ++ ['%']))) (lowerStr s) =
        specCaseInsensitiveSubstring f s) :=
  ⟨get_filtered_eq_filter, ilike_wrap_eq_substr⟩

/-- Witness for C7 (amended): the metacharacter-free filter `ab` against the
value `XABY` is a case-insensitive substring match, and the characterization
applies at a concrete query. -/
theorem c7_filters_ilike_conjunctive_witness :
    likeMatch (lowerStr ('%' :: ("ab".toList ++ ['%']))) (lowerStr "XABY".toList) =
      specCaseInsensitiveSubstring "ab".toList "XABY".toList ∧
    get_filtered_cases_as_dicts .ok [] (some "ab".toList) none none none = [] :=
  ⟨c7_filters_ilike_conjunctive.2 "ab".toList "XABY".toList (by rfl),
    by rw [c7_filters_ilike_conjunctive.1 [] (some "ab".toList) none none none]; rfl⟩

/-- C8: for every non-empty persisted store, `export_data_to_csv` writes the
CSV text with header `case_number,case_date,inn` and dates rendered as ISO
strings, and parsing that text back yields exactly the header followed by
the `(case_number, case_date, inn)` field tuples of the persisted records,
in store order — for arbitrary field contents, including commas, quotes and
line breaks, thanks to minimal quoting.  (An empty store produces no file at
all: the source returns `False` before writing.) -/
theorem c8_csv_export_roundtrip (store : List DbRow) (h : store ≠ []) :
    export_data_to_csv .ok store = some (csvContent (store.map rowToDict)) ∧
    csvParse (csvContent (store.map rowToDict)) =
      csvHeader :: store.map (fun r => [r.case_number, isoformat r.case_date, r.inn]) := by
  constructor
  · simp only [export_data_to_csv, get_all_cases_as_dicts]
    rw [if_neg]
    simp only [List.isEmpty_iff, List.map_eq_nil_iff]
    exact h
  · rw [csvParse_csvContent]
    simp [dictFields, rowToDict, List.map_map, Function.comp]

/-- Witness for C8 at a concrete one-row store. -/
theorem c8_csv_export_roundtrip_witness :
    export_data_to_csv .ok ([⟨"A1".toList, ⟨2023, 1, 15⟩, "123".toList⟩] : List DbRow) =
      some (csvContent (([⟨"A1".toList, ⟨2023, 1, 15⟩, "123".toList⟩] : List DbRow).map rowToDict)) ∧
    csvParse (csvContent (([⟨"A1".toList, ⟨2023, 1, 15⟩, "123".toList⟩] : List DbRow).map rowToDict)) =
      csvHeader :: ([⟨"A1".toList, ⟨2023, 1, 15⟩, "123".toList⟩] : List DbRow).map
        (fun r => [r.case_number, isoformat r.case_date, r.inn]) :=
  c8_csv_export_roundtrip _ (by simp)

/-- C10: a connection failure and a query error inside the read paths are
caught and yield the empty list, exactly the value a healthy database with
no persisted records yields; consequently `filter_cases` emits the very same
trace — a found-count of zero — in both situations, and never its error
message. -/
theorem c10_db_fault_indistinguishable (store : List DbRow) (cnF innF : Option Str)
    (sd ed : Option CalDate) :
    get_all_cases_as_dicts .connFail store = [] ∧
    get_all_cases_as_dicts .queryErr store = [] ∧
    get_filtered_cases_as_dicts .connFail store cnF innF sd ed = [] ∧
    get_filtered_cases_as_dicts .queryErr store cnF innF sd ed = [] ∧
    get_filtered_cases_as_dicts .connFail store cnF innF sd ed =
      get_filtered_cases_as_dicts .ok [] cnF innF sd ed ∧
    filter_cases .connFail store cnF innF sd ed = filter_cases .ok [] cnF innF sd ed ∧
    filter_cases .queryErr store cnF innF sd ed = filter_cases .ok [] cnF innF sd ed ∧
    (filter_cases .connFail store cnF innF sd ed).contains
      (.status (.foundFiltered 0)) = true ∧
    (filter_cases .connFail store cnF innF sd ed).contains
      (.status .filterError) = false :=
  ⟨rfl, rfl, rfl, rfl, rfl, rfl, rfl, rfl, rfl⟩

/-- C9 counterexample: for a successful Connector call returning zero
records, no status message of the run carries the count 0 — the coordinator
reports the count-free "no new cases found or an error occurred" message
instead — so a count equal to N is not reported for N = 0 (no persistence
operation occurs either). -/
theorem c9_zero_records_no_count :
    (start_scraping (fun _ => []) .ok [] "1234567890".toList).events.all
      (fun e => e.reportedCount != some 0) = true ∧
    (start_scraping (fun _ => []) .ok [] "1234567890".toList).events.contains
      (.status (.noCasesFoundOrError "1234567890".toList)) = true ∧
    (start_scraping (fun _ => []) .ok [] "1234567890".toList).events.all
      (fun e => !e.isDbOp) = true :=
  ⟨rfl, rfl, rfl⟩

/-- C9 (amended): for every valid taxpayer ID and every successful Connector
call returning N ≥ 1 records, the found-count message carrying exactly N is
emitted strictly before any persistence operation; for N = 0 the coordinator
performs no persistence operation at all and reports the count-free
no-results message. -/
theorem c9_count_reported_before_persistence (scrape : Str → List CaseDict) (db : DbHealth)
    (store : List DbRow) (inn : Str) (h : innShapeOk inn = true) :
    (scrape inn ≠ [] →
      ((start_scraping scrape db store inn).events.takeWhile (fun e => !e.isDbOp)).contains
        (.status (.foundCases (scrape inn).length inn)) = true) ∧
    (scrape inn = [] →
      (start_scraping scrape db store inn).events.all (fun e => !e.isDbOp) = true ∧
      (start_scraping scrape db store inn).events.contains
        (.status (.noCasesFoundOrError inn)) = true) := by
  constructor
  · intro hne
    have hemp : (scrape inn).isEmpty = false := by
      simpa [List.isEmpty_iff] using hne
    simp [start_scraping, h, hemp, Event.isDbOp, List.takeWhile_cons, List.contains_cons]
  · intro hnil
    constructor
    · simp [start_scraping, h, hnil, Event.isDbOp]
    · simp [start_scraping, h, hnil, List.contains_cons]

/-- Witness for C9 (amended) at a valid taxpayer ID and a one-record
Connector result. -/
theorem c9_count_reported_before_persistence_witness :
    ((fun (_ : Str) => [(⟨"A1".toList, "2023-01-15".toList, "123".toList⟩ : CaseDict)])
        "1234567890".toList ≠ [] →
      ((start_scraping
          (fun _ => [(⟨"A1".toList, "2023-01-15".toList, "123".toList⟩ : CaseDict)])
          .ok [] "1234567890".toList).events.takeWhile (fun e => !e.isDbOp)).contains
        (.status (.foundCases
          ((fun (_ : Str) => [(⟨"A1".toList, "2023-01-15".toList, "123".toList⟩ : CaseDict)])
            "1234567890".toList).length "1234567890".toList)) = true) ∧
    ((fun (_ : Str) => [(⟨"A1".toList, "2023-01-15".toList, "123".toList⟩ : CaseDict)])
        "1234567890".toList = [] →
      (start_scraping
          (fun _ => [(⟨"A1".toList, "2023-01-15".toList, "123".toList⟩ : CaseDict)])
          .ok [] "1234567890".toList).events.all (fun e => !e.isDbOp) = true ∧
      (start_scraping
          (fun _ => [(⟨"A1".toList, "2023-01-15".toList, "123".toList⟩ : CaseDict)])
          .ok [] "1234567890".toList).events.contains
        (.status (.noCasesFoundOrError "1234567890".toList)) = true) :=
  c9_count_reported_before_persistence
    (fun _ => [(⟨"A1".toList, "2023-01-15".toList, "123".toList⟩ : CaseDict)])
    .ok [] "1234567890".toList (by rfl)
